import Mathlib

/-!
Verification development for the `causalign` repository
(src/causalign/modules/causal_sent.py and src/causalign/train_causal_sent.py).

The development shallowly embeds the parts of the code the claims are about:

* the parameter-freezing state of a `CausalSent` model (construction,
  `unfreeze_backbone`, `unfreeze_backbone_fraction`, the two
  trainable-parameter percentage queries);
* the branching structure of `CausalSent.forward` (pooling policy, the
  training-mode six-tuple, the inference-mode single output), instrumented
  with a log recording which inputs the backbone and each head receive;
* the per-batch computation of the training loop in `train_causal_sent`
  (the running / per-batch ATE estimate `tau_hat` and the three losses).

Tensors of per-example scalars are modelled as `List ℚ`; per-token embedding
sequences as `List (List ℚ)`.  Externally supplied numerical functions that the
code only composes (`torch.sigmoid`, `BCEWithLogitsLoss`) are abstract function
parameters: every claim below is about the arithmetic and control flow the
repository itself contributes, not about those library functions.
-/

/-- Decidable equality for `Except`, so that concrete runs of fallible
operations can be evaluated by `decide`. -/
instance {ε α : Type} [DecidableEq ε] [DecidableEq α] : DecidableEq (Except ε α) :=
  fun a b =>
    match a, b with
    | .ok x, .ok y =>
      if h : x = y then .isTrue (by rw [h]) else .isFalse (fun hc => h (Except.ok.inj hc))
    | .error x, .error y =>
      if h : x = y then .isTrue (by rw [h]) else .isFalse (fun hc => h (Except.error.inj hc))
    | .ok _, .error _ => .isFalse (fun hc => Except.noConfusion hc)
    | .error _, .ok _ => .isFalse (fun hc => Except.noConfusion hc)

/- ============================================================
   Parameters and model freezing state
   (src/causalign/modules/causal_sent.py)
   ============================================================ -/

/-- A single tensor of parameters, as seen by the freezing logic: its element
count (`numel`) and its `requires_grad` flag. -/
structure Param where
  numel : Nat
  requires_grad : Bool
deriving DecidableEq, Repr

/-- The backbone as the freezing logic sees it:
whether `getattr(backbone, "encoder", getattr(backbone, "transformer", None))`
succeeds, the list `encoder.layer` of top-level transformer layers (each a list
of parameter tensors), and the remaining backbone parameters that belong to no
such layer (for DistilBERT e.g. the embeddings). `backbone.parameters()` is the
union of the two groups. -/
structure Backbone where
  has_encoder_or_transformer : Bool
  layers : List (List Param)
  non_layer_params : List Param
deriving DecidableEq, Repr

/-- `self.backbone.parameters()`. -/
def Backbone.parameters (bb : Backbone) : List Param :=
  bb.non_layer_params ++ bb.layers.flatten

/-- The `CausalSent` module state relevant to the freezing claims: the backbone
and the parameters of the two heads (`self.riesz`, `self.sentiment`). -/
structure CausalSentModel where
  backbone : Backbone
  riesz_params : List Param
  sentiment_params : List Param
deriving DecidableEq, Repr

/-- `self.parameters()`: backbone parameters, then the two heads
(registration order; the order is irrelevant to all sums below). -/
def CausalSentModel.parameters (m : CausalSentModel) : List Param :=
  m.backbone.parameters ++ m.riesz_params ++ m.sentiment_params

/-- Set `requires_grad` of every parameter in a list (the
`for param in ...: param.requires_grad = b` idiom). -/
def setGrad (b : Bool) (ps : List Param) : List Param :=
  ps.map (fun p => { p with requires_grad := b })

/-- Effect of `CausalSent.__init__` on trainability (causal_sent.py lines
50-95): every backbone parameter is frozen, every parameter of the two heads is
made trainable.  (The constructor also loads weights, initializes the heads and
prints; none of that affects the freezing state modelled here.) -/
def CausalSent_init (bb : Backbone) (riesz sentiment : List Param) : CausalSentModel :=
  { backbone := { bb with layers := bb.layers.map (setGrad false),
                          non_layer_params := setGrad false bb.non_layer_params },
    riesz_params := setGrad true riesz,
    sentiment_params := setGrad true sentiment }

/-- Sum of `p.numel()` over a parameter list. -/
def totalNumel (ps : List Param) : Nat := (ps.map Param.numel).sum

/-- Sum of `p.numel()` over the parameters with `requires_grad`. -/
def trainableNumel (ps : List Param) : Nat :=
  ((ps.filter (fun p => p.requires_grad)).map Param.numel).sum

/-- `percentage_trainable_params` (causal_sent.py lines 97-104):
`trainable / total * 100`.  (When the model has no parameters Python raises
`ZeroDivisionError`; the spec lists this as an unhandled open risk, and all
claims below are scoped to models with parameters, so the `ℚ`-division junk
value at `total = 0` is never relied upon.) -/
def CausalSentModel.percentage_trainable_params (m : CausalSentModel) : ℚ :=
  (trainableNumel m.parameters : ℚ) / (totalNumel m.parameters : ℚ) * 100

/-- `percentage_trainable_backbone_params` (causal_sent.py lines 106-113). -/
def CausalSentModel.percentage_trainable_backbone_params (m : CausalSentModel) : ℚ :=
  (trainableNumel m.backbone.parameters : ℚ) / (totalNumel m.backbone.parameters : ℚ) * 100

/-- The `num_layers` argument of `unfreeze_backbone`: the string `"all"` or an
integer. -/
inductive NumLayers
  | all
  | num (n : Int)
deriving DecidableEq, Repr

/-- The `AttributeError` raised when the backbone exposes neither an
`encoder` nor a `transformer` attribute. -/
def attrErrMsg : String :=
  "AttributeError: backbone has neither encoder nor transformer attribute"

/-- The `num_layers == "all"` branch (causal_sent.py lines 166-169):
`for param in self.backbone.parameters(): param.requires_grad = True`. -/
def unfreezeAllParams (m : CausalSentModel) : CausalSentModel :=
  { m with backbone := { m.backbone with
      layers := m.backbone.layers.map (setGrad true),
      non_layer_params := setGrad true m.backbone.non_layer_params } }

/-- The integer branch (causal_sent.py lines 170-178): `layer_list[-num_layers:]`
for a positive `num_layers = n` is the last `min n (length)` layers; every
parameter of those layers is made trainable. `List.drop (len - n)` matches
Python's negative-index slice, including `n > len` (the whole list). -/
def unfreezeLastLayers (m : CausalSentModel) (n : Nat) : CausalSentModel :=
  let k := m.backbone.layers.length - n
  { m with backbone := { m.backbone with
      layers := m.backbone.layers.take k ++ (m.backbone.layers.drop k).map (setGrad true) } }

/-- `unfreeze_backbone` (causal_sent.py lines 143-198).  Control flow of the
source: a non-positive integer `num_layers` skips the whole unfreezing block
(`pass`); otherwise the encoder/transformer attribute is looked up and its
absence raises `AttributeError`; then either all backbone parameters or the
last `num_layers` layers are unfrozen.  The function returns the dict
`{"trainable_model": percentage_trainable_params(),
  "trainable_backbone": percentage_trainable_backbone_params()}`,
modelled as the pair of rationals together with the updated model. -/
def CausalSentModel.unfreeze_backbone (m : CausalSentModel) (num_layers : NumLayers) :
    Except String (CausalSentModel × ℚ × ℚ) :=
  match num_layers with
  | .num n =>
    if n ≤ 0 then
      .ok (m, m.percentage_trainable_params, m.percentage_trainable_backbone_params)
    else if m.backbone.has_encoder_or_transformer then
      let m2 := unfreezeLastLayers m n.toNat
      .ok (m2, m2.percentage_trainable_params, m2.percentage_trainable_backbone_params)
    else
      .error attrErrMsg
  | .all =>
    if m.backbone.has_encoder_or_transformer then
      let m2 := unfreezeAllParams m
      .ok (m2, m2.percentage_trainable_params, m2.percentage_trainable_backbone_params)
    else
      .error attrErrMsg

/-- Python `int()` applied to a number: truncation toward zero. -/
def pyInt (q : ℚ) : Int := if 0 ≤ q then Int.floor q else Int.ceil q

/-- `unfreeze_backbone_fraction` (causal_sent.py lines 115-141).  The source
fetches the encoder attribute first (raising `AttributeError` when absent),
computes `total_backbone_layers = len(list(encoder.layer))`, then with
`eps = 1e-2` chooses `"all"` when `fraction > 1.0 - eps` and
`int(total_backbone_layers * fraction)` otherwise, and delegates to
`unfreeze_backbone`.  Arithmetic is modelled in `ℚ`; at the comparison point
this agrees with the source's float arithmetic (in IEEE double,
`1.0 - 1e-2` rounds to exactly the double nearest `0.99`, so the comparison is
a strict `fraction > 0.99` there as well). -/
def CausalSentModel.unfreeze_backbone_fraction (m : CausalSentModel) (fraction : ℚ) :
    Except String (CausalSentModel × ℚ × ℚ) :=
  if m.backbone.has_encoder_or_transformer then
    m.unfreeze_backbone
      (if 1 - 1/100 < fraction then .all
       else .num (pyInt ((m.backbone.layers.length : ℚ) * fraction)))
  else
    .error attrErrMsg

/- ============================================================
   Forward pass (CausalSent.forward, causal_sent.py lines 200-277)
   ============================================================ -/

/-- The two supported backbone families.  `CausalSent.__init__` (lines 36-45)
guarantees that a constructed model's backbone is a `DistilBertModel`
("bert" in the name) or a `LlamaModel` ("llama" in the name), raising
`ValueError` otherwise, so `forward` only ever sees these two; the
`isinstance` fallthrough errors of `forward` are therefore unreachable and the
family is modelled as this two-valued tag. -/
inductive BackboneFamily
  | distilbert
  | llama
deriving DecidableEq, Repr

/-- What a head is applied to: a single pooled embedding vector per example, or
the full per-token embedding sequence (`last_hidden_state`). -/
inductive HeadInput
  | pooled (v : List ℚ)
  | seq (s : List (List ℚ))
deriving DecidableEq, Repr

/-- Pooling of `last_hidden_state` (lines 216-223 / 258-261): DistilBERT takes
the first sequence position (`[:, 0, :]`, the CLS token), LLaMA the last
(`[:, -1, :]`).  A transformer output always has at least one token; the
defaults are never reached on such inputs. -/
def pool (fam : BackboneFamily) (last_hidden_state : List (List ℚ)) : List ℚ :=
  match fam with
  | .distilbert => last_hidden_state.headD []
  | .llama => last_hidden_state.getLastD []

/-- The test `head_type in ['fcn', 'linear']` from the source. -/
def isFcnOrLinear (ht : String) : Bool := ht == "fcn" || ht == "linear"

/-- One head block of the training branch (lines 228-237 for the Riesz head,
239-248 for the sentiment head — the two blocks are textually identical up to
the head and the error message): selects the three inputs the head receives
(pooled embedding for `fcn`/`linear`, full sequence for `conv`) or raises
`ValueError` for any other head type.  Returns the chosen inputs so the
instrumentation below can record them. -/
def headInputs3 (label : String) (fam : BackboneFamily) (ht : String)
    (outR outT outC : List (List ℚ)) :
    Except String (HeadInput × HeadInput × HeadInput) :=
  if isFcnOrLinear ht then
    .ok (.pooled (pool fam outR), .pooled (pool fam outT), .pooled (pool fam outC))
  else if ht == "conv" then
    .ok (.seq outR, .seq outT, .seq outC)
  else
    .error ("[ERROR] Unsupported " ++ label ++ " head type: " ++ ht)

/-- The model as `forward` sees it.  The backbone and the two heads are
abstract functions (their numerics are external); `forward` only routes data
between them. -/
structure ForwardModel (Ids Mask : Type) where
  family : BackboneFamily
  riesz_head_type : String
  sentiment_head_type : String
  backbone : Ids → Mask → List (List ℚ)
  riesz : HeadInput → ℚ
  sentiment : HeadInput → ℚ
  training : Bool

/-- Instrumentation of a `forward` call: the `(input_ids, attention_mask)`
pairs the backbone was applied to, in call order, and the inputs each head was
applied to, in call order. -/
structure ForwardLog (Ids Mask : Type) where
  backbone_calls : List (Ids × Mask)
  riesz_calls : List HeadInput
  sentiment_calls : List HeadInput
deriving DecidableEq, Repr

/-- Return value of `forward`: in training mode the six-tuple
`(sentiment_real, sentiment_treated, sentiment_control,
  riesz_real, riesz_treated, riesz_control)` (line 250-251), in inference mode
the single sentiment output (line 277). -/
inductive ForwardOutput
  | trainOut (sentiment_real sentiment_treated sentiment_control
              riesz_real riesz_treated riesz_control : ℚ)
  | inferOut (sentiment_real : ℚ)
deriving DecidableEq, Repr

/-- `CausalSent.forward` (lines 200-277), instrumented with a call log.
Training mode: the backbone runs on real, treated and control inputs (lines
209-211), the Riesz block runs (error first if its head type is unsupported),
then the sentiment block, and the six outputs are returned.  Inference mode:
the backbone runs once on the real input (line 253) and only the sentiment
output is returned (lines 257-277). -/
def CausalSent_forward {Ids Mask : Type} (M : ForwardModel Ids Mask)
    (input_ids_real input_ids_treated input_ids_control : Ids)
    (attention_mask_real attention_mask_treated attention_mask_control : Mask) :
    ForwardLog Ids Mask × Except String ForwardOutput :=
  if M.training then
    let outR := M.backbone input_ids_real attention_mask_real
    let outT := M.backbone input_ids_treated attention_mask_treated
    let outC := M.backbone input_ids_control attention_mask_control
    let bcalls := [(input_ids_real, attention_mask_real),
                   (input_ids_treated, attention_mask_treated),
                   (input_ids_control, attention_mask_control)]
    match headInputs3 "Riesz" M.family M.riesz_head_type outR outT outC with
    | .error e => (⟨bcalls, [], []⟩, .error e)
    | .ok (rR, rT, rC) =>
      match headInputs3 "sentiment" M.family M.sentiment_head_type outR outT outC with
      | .error e => (⟨bcalls, [rR, rT, rC], []⟩, .error e)
      | .ok (sR, sT, sC) =>
        (⟨bcalls, [rR, rT, rC], [sR, sT, sC]⟩,
         .ok (.trainOut (M.sentiment sR) (M.sentiment sT) (M.sentiment sC)
                        (M.riesz rR) (M.riesz rT) (M.riesz rC)))
  else
    let outR := M.backbone input_ids_real attention_mask_real
    let bcalls := [(input_ids_real, attention_mask_real)]
    if isFcnOrLinear M.sentiment_head_type then
      let i := HeadInput.pooled (pool M.family outR)
      (⟨bcalls, [], [i]⟩, .ok (.inferOut (M.sentiment i)))
    else if M.sentiment_head_type == "conv" then
      let i := HeadInput.seq outR
      (⟨bcalls, [], [i]⟩, .ok (.inferOut (M.sentiment i)))
    else
      (⟨bcalls, [], []⟩,
       .error ("[ERROR] Unsupported sentiment head type: " ++ M.sentiment_head_type))

/-- The input a head of type `ht` receives for a given `last_hidden_state`,
per the pooling policy (used to state the shape of the training six-tuple). -/
def headInputFor (fam : BackboneFamily) (ht : String) (s : List (List ℚ)) : HeadInput :=
  if isFcnOrLinear ht then .pooled (pool fam s) else .seq s

/- ============================================================
   Training-loop per-batch computation
   (src/causalign/train_causal_sent.py lines 94-148)
   ============================================================ -/

/-- `torch.mean` of a flat tensor: sum over element count. -/
def mean (xs : List ℚ) : ℚ := xs.sum / (xs.length : ℚ)

/-- One training batch's tensors as the loss code sees them: the six forward
outputs (per-example scalars) and the ground-truth targets. -/
structure BatchTensors where
  riesz_real : List ℚ
  riesz_treated : List ℚ
  riesz_control : List ℚ
  sentiment_real : List ℚ
  sentiment_treated : List ℚ
  sentiment_control : List ℚ
  targets : List ℚ
deriving DecidableEq, Repr

/-- The running-ATE accumulators `epoch_riesz_outputs`,
`epoch_sentiment_outputs`, `epoch_targets` (train_causal_sent.py lines
123-127): per-batch tensors appended batch by batch. -/
structure AteAccum where
  epoch_riesz_outputs : List (List ℚ)
  epoch_sentiment_outputs : List (List ℚ)
  epoch_targets : List (List ℚ)
deriving DecidableEq, Repr

/-- The `tau_hat` computation (train_causal_sent.py lines 122-135).  The
accumulator argument is `none` while the three accumulator variables are not
yet bound in the function's local scope (the `"epoch_riesz_outputs" not in
locals()` check of line 123 then initializes them to empty lists).  In running
mode the three per-batch tensors are appended, the accumulators concatenated,
and — exactly as the Python parses, the conditional expression binding looser
than `*` —
`tau_hat = mean((all_riesz_outputs * all_sentiment_outputs) if
estimate_targets_for_ate else all_targets)`.
In per-batch mode (line 135)
`tau_hat = mean(riesz_outputs_real * (sigmoid(sentiment_outputs_real) if
estimate_targets_for_ate else targets))`. -/
def compute_tau_hat (sigmoid : ℚ → ℚ) (running_ate estimate_targets_for_ate : Bool)
    (acc : Option AteAccum) (b : BatchTensors) : Option AteAccum × ℚ :=
  if running_ate then
    let acc0 := acc.getD ⟨[], [], []⟩
    let acc1 : AteAccum :=
      { epoch_riesz_outputs := acc0.epoch_riesz_outputs ++ [b.riesz_real],
        epoch_sentiment_outputs := acc0.epoch_sentiment_outputs ++ [b.sentiment_real.map sigmoid],
        epoch_targets := acc0.epoch_targets ++ [b.targets] }
    let all_riesz_outputs := acc1.epoch_riesz_outputs.flatten
    let all_sentiment_outputs := acc1.epoch_sentiment_outputs.flatten
    let all_targets := acc1.epoch_targets.flatten
    let tau_hat :=
      if estimate_targets_for_ate then
        mean (List.zipWith (fun a b => a * b) all_riesz_outputs all_sentiment_outputs)
      else
        mean all_targets
    (some acc1, tau_hat)
  else
    (acc,
     mean (List.zipWith (fun a b => a * b) b.riesz_real
       (if estimate_targets_for_ate then b.sentiment_real.map sigmoid else b.targets)))

/-- The scalars a batch iteration produces (train_causal_sent.py lines
122-141). -/
structure BatchLosses where
  tau_hat : ℚ
  riesz_loss : ℚ
  reg_loss : ℚ
  bce : ℚ
  loss : ℚ
deriving DecidableEq, Repr

/-- One iteration of the inner batch loop, loss part (train_causal_sent.py
lines 122-141):
`riesz_loss = mean(-2 * (riesz_outputs_treated - riesz_outputs_control)
                   + riesz_outputs_real ** 2)`,
`reg_loss  = mean((sentiment_outputs_treated - sentiment_outputs_control
                   - tau_hat) ** 2)` (the scalar `tau_hat` broadcast),
`bce = bce_loss(sentiment_outputs_real, targets)` (external), and
`loss = lambda_bce * bce + lambda_reg * reg_loss + lambda_riesz * riesz_loss`. -/
def trainBatchStep (sigmoid : ℚ → ℚ) (bce_loss : List ℚ → List ℚ → ℚ)
    (lambda_bce lambda_reg lambda_riesz : ℚ)
    (running_ate estimate_targets_for_ate : Bool)
    (acc : Option AteAccum) (b : BatchTensors) : Option AteAccum × BatchLosses :=
  let res := compute_tau_hat sigmoid running_ate estimate_targets_for_ate acc b
  let tau_hat := res.2
  let riesz_loss := mean (List.zipWith (fun a b => a + b)
      ((List.zipWith (fun a b => a - b) b.riesz_treated b.riesz_control).map (fun x => -2 * x))
      (b.riesz_real.map (fun x => x ^ 2)))
  let reg_loss := mean (((List.zipWith (fun a b => a - b)
      b.sentiment_treated b.sentiment_control).map (fun x => x - tau_hat)).map (fun x => x ^ 2))
  let bce := bce_loss b.sentiment_real b.targets
  let loss := lambda_bce * bce + lambda_reg * reg_loss + lambda_riesz * riesz_loss
  (res.1, ⟨tau_hat, riesz_loss, reg_loss, bce, loss⟩)

/-- The inner batch loop of one epoch (train_causal_sent.py line 99), threading
the running-ATE accumulator through the batches. -/
def runEpochBatches (sigmoid : ℚ → ℚ) (bce_loss : List ℚ → List ℚ → ℚ)
    (lambda_bce lambda_reg lambda_riesz : ℚ)
    (running_ate estimate_targets_for_ate : Bool)
    (acc : Option AteAccum) (batches : List BatchTensors) :
    Option AteAccum × List BatchLosses :=
  match batches with
  | [] => (acc, [])
  | b :: rest =>
    let step := trainBatchStep sigmoid bce_loss lambda_bce lambda_reg lambda_riesz
      running_ate estimate_targets_for_ate acc b
    let tail := runEpochBatches sigmoid bce_loss lambda_bce lambda_reg lambda_riesz
      running_ate estimate_targets_for_ate step.1 rest
    (tail.1, step.2 :: tail.2)

/-- The epoch loop of `train_causal_sent` (lines 94-172), restricted to the
per-batch scalar computation.  The accumulator variables live in the scope of
the whole function call: they start unbound (`none`), are lazily initialized at
the first running-ATE batch by the `locals()` check, and the `for epoch in
range(epochs)` loop body never rebinds or clears them, so the state is carried
from one epoch into the next. -/
def train_causal_sent_loop (sigmoid : ℚ → ℚ) (bce_loss : List ℚ → List ℚ → ℚ)
    (lambda_bce lambda_reg lambda_riesz : ℚ)
    (running_ate estimate_targets_for_ate : Bool)
    (epochs : List (List BatchTensors)) :
    Option AteAccum × List (List BatchLosses) :=
  match epochs with
  | [] => (none, [])
  | _ => train_causal_sent_loopAux sigmoid bce_loss lambda_bce lambda_reg lambda_riesz
      running_ate estimate_targets_for_ate none epochs
where
  train_causal_sent_loopAux (sigmoid : ℚ → ℚ) (bce_loss : List ℚ → List ℚ → ℚ)
      (lambda_bce lambda_reg lambda_riesz : ℚ)
      (running_ate estimate_targets_for_ate : Bool)
      (acc : Option AteAccum) (epochs : List (List BatchTensors)) :
      Option AteAccum × List (List BatchLosses) :=
    match epochs with
    | [] => (acc, [])
    | ep :: rest =>
      let e := runEpochBatches sigmoid bce_loss lambda_bce lambda_reg lambda_riesz
        running_ate estimate_targets_for_ate acc ep
      let tail := train_causal_sent_loopAux sigmoid bce_loss lambda_bce lambda_reg lambda_riesz
        running_ate estimate_targets_for_ate e.1 rest
      (tail.1, e.2 :: tail.2)

/- ============================================================
   The constructor call of the training script
   (train_causal_sent.py line 89)
   ============================================================ -/

/-- The keyword parameters accepted by `CausalSent.__init__`
(causal_sent.py lines 10-14); besides `self` the signature is
`(pretrained_model_name, sentiment_head_type='fcn', riesz_head_type='fcn')`
and there is no `**kwargs`. -/
def causalSentInitParamNames : List String :=
  ["pretrained_model_name", "sentiment_head_type", "riesz_head_type"]

/-- Python keyword-argument binding: a call raises `TypeError` as soon as some
keyword is not among the accepted parameter names (for a function without
`**kwargs`), before any of the function body runs. -/
def pyBindKwargs (accepted : List String) (kwargs : List String) : Except String Unit :=
  match kwargs.filter (fun k => !(accepted.contains k)) with
  | [] => .ok ()
  | k :: _ => .error ("TypeError: __init__ got an unexpected keyword argument " ++ k)

/-- The arguments of `train_causal_sent` that could reach the constructor call;
the remaining hyperparameters (loss weights, batch size, ...) are consumed
elsewhere in the function and cannot influence the call of line 89. -/
structure TrainArgs where
  pretrained_model_name : String
  running_ate : Bool
  estimate_targets_for_ate : Bool
deriving DecidableEq, Repr

/-- The constructor call of train_causal_sent.py line 89,
`CausalSent(bert_hidden_size=768, pretrained_model_name=pretrained_model_name)`:
its keyword binding against `CausalSent.__init__`.  The call site always passes
the keyword `bert_hidden_size`, whatever the arguments are; the call precedes
the training loop of line 94, and an exception propagates (there is no
`try`/`except` in the function). -/
def constructModelCall (_args : TrainArgs) : Except String Unit :=
  pyBindKwargs causalSentInitParamNames ["bert_hidden_size", "pretrained_model_name"]

/- ============================================================
   Concrete instances used by counterexamples and witnesses
   ============================================================ -/

/-- A freshly constructed model whose backbone exposes an encoder with exactly
one top-level layer (one parameter of numel 1) and one non-layer parameter,
and one parameter of numel 1 in each head. -/
def oneLayerModel : CausalSentModel :=
  CausalSent_init
    { has_encoder_or_transformer := true,
      layers := [[{ numel := 1, requires_grad := false }]],
      non_layer_params := [{ numel := 1, requires_grad := false }] }
    [{ numel := 1, requires_grad := false }]
    [{ numel := 1, requires_grad := false }]

/-- A freshly constructed model whose backbone exposes neither an `encoder`
nor a `transformer` attribute. -/
def noEncoderModel : CausalSentModel :=
  CausalSent_init
    { has_encoder_or_transformer := false,
      layers := [],
      non_layer_params := [{ numel := 1, requires_grad := true }] }
    [{ numel := 1, requires_grad := false }]
    [{ numel := 1, requires_grad := true }]

/-- A head that just measures its input, enough to see which input it was
given: the sum of a pooled vector, the token count of a sequence. -/
def headScore : HeadInput → ℚ
  | .pooled v => v.sum
  | .seq s => (s.length : ℚ)

/-- A concrete training-mode forward model over `Nat` input handles: DistilBERT
family, `fcn` Riesz head, `conv` sentiment head. -/
def fwdDemoModel : ForwardModel Nat Nat :=
  { family := .distilbert,
    riesz_head_type := "fcn",
    sentiment_head_type := "conv",
    backbone := fun i m => [[(i : ℚ)], [(m : ℚ)]],
    riesz := headScore,
    sentiment := headScore,
    training := true }

/-- The same concrete model in inference mode. -/
def fwdDemoInferModel : ForwardModel Nat Nat :=
  { fwdDemoModel with training := false }

/-- A first running-ATE batch: one example with Riesz-real output 2,
sentiment-real logit 0 and ground-truth target 1. -/
def tauDemoBatch : BatchTensors :=
  { riesz_real := [2], riesz_treated := [0], riesz_control := [0],
    sentiment_real := [0], sentiment_treated := [0], sentiment_control := [0],
    targets := [1] }

/-- Single-example batch with target 0 (the only batch of epoch 1 in the
cross-epoch scenario). -/
def crossEpochBatch1 : BatchTensors :=
  { riesz_real := [1], riesz_treated := [0], riesz_control := [0],
    sentiment_real := [0], sentiment_treated := [0], sentiment_control := [0],
    targets := [0] }

/-- Single-example batch with target 1 (the only batch of epoch 2 in the
cross-epoch scenario). -/
def crossEpochBatch2 : BatchTensors :=
  { riesz_real := [1], riesz_treated := [0], riesz_control := [0],
    sentiment_real := [0], sentiment_treated := [0], sentiment_control := [0],
    targets := [1] }

/-- The right-hand sides the claims state for the loss terms, written as one
map over the zipped per-example tuples:
Riesz loss is the mean of `-2 * (riesz_treated - riesz_control) + riesz_real ^ 2`. -/
def rieszLossClaim (riesz_treated riesz_control riesz_real : List ℚ) : ℚ :=
  mean ((riesz_treated.zip (riesz_control.zip riesz_real)).map
    (fun p => -2 * (p.1 - p.2.1) + p.2.2 ^ 2))

/-- Regularization loss as the claim states it: the mean of
`(sentiment_treated - sentiment_control - tau_hat) ^ 2` over the examples. -/
def regLossClaim (sentiment_treated sentiment_control : List ℚ) (tau_hat : ℚ) : ℚ :=
  mean ((sentiment_treated.zip sentiment_control).map
    (fun p => (p.1 - p.2 - tau_hat) ^ 2))

/-- Model states reachable by construction and unfreeze operations (the scope
of the spec's percentage claim).  A freshly constructed model has a pretrained
transformer backbone, which always carries at least one parameter element;
successful unfreeze calls preserve reachability. -/
inductive Reachable : CausalSentModel → Prop
  | init (bb : Backbone) (riesz sentiment : List Param)
      (hpos : 0 < totalNumel (CausalSent_init bb riesz sentiment).backbone.parameters) :
      Reachable (CausalSent_init bb riesz sentiment)
  | unfreeze (m : CausalSentModel) (nl : NumLayers) (m2 : CausalSentModel) (p q : ℚ)
      (hm : Reachable m) (h : m.unfreeze_backbone nl = .ok (m2, p, q)) :
      Reachable m2
  | unfreeze_fraction (m : CausalSentModel) (f : ℚ) (m2 : CausalSentModel) (p q : ℚ)
      (hm : Reachable m) (h : m.unfreeze_backbone_fraction f = .ok (m2, p, q)) :
      Reachable m2

/- ============================================================
   Helper lemmas on parameter sums
   ============================================================ -/

theorem totalNumel_append (l1 l2 : List Param) :
    totalNumel (l1 ++ l2) = totalNumel l1 + totalNumel l2 := by
  simp [totalNumel]

theorem trainableNumel_append (l1 l2 : List Param) :
    trainableNumel (l1 ++ l2) = trainableNumel l1 + trainableNumel l2 := by
  simp [trainableNumel]

theorem trainableNumel_le_totalNumel (ps : List Param) :
    trainableNumel ps ≤ totalNumel ps := by
  induction ps with
  | nil => simp [trainableNumel, totalNumel]
  | cons p rest ih =>
    by_cases h : p.requires_grad
    · simp only [trainableNumel, totalNumel, List.filter_cons, h, if_true, List.map_cons,
        List.sum_cons] at ih ⊢
      omega
    · simp only [trainableNumel, totalNumel, List.filter_cons, h, if_false, List.map_cons,
        List.sum_cons, Bool.false_eq_true] at ih ⊢
      omega

theorem totalNumel_setGrad (b : Bool) (ps : List Param) :
    totalNumel (setGrad b ps) = totalNumel ps := by
  unfold totalNumel setGrad
  rw [List.map_map]
  rfl

theorem trainableNumel_setGrad_false (ps : List Param) :
    trainableNumel (setGrad false ps) = 0 := by
  induction ps with
  | nil => rfl
  | cons p rest ih =>
    simpa [setGrad, trainableNumel, List.filter_cons] using ih

theorem totalNumel_flatten_setGrad (b : Bool) (ls : List (List Param)) :
    totalNumel (ls.map (setGrad b)).flatten = totalNumel ls.flatten := by
  induction ls with
  | nil => rfl
  | cons l rest ih =>
    simp [List.flatten_cons, totalNumel_append, totalNumel_setGrad, ih]

theorem trainableNumel_flatten_setGrad_false (ls : List (List Param)) :
    trainableNumel (ls.map (setGrad false)).flatten = 0 := by
  induction ls with
  | nil => rfl
  | cons l rest ih =>
    simp [List.flatten_cons, trainableNumel_append, trainableNumel_setGrad_false, ih]

theorem totalNumel_flatten_take_drop_setGrad (b : Bool) (ls : List (List Param)) (k : Nat) :
    totalNumel (ls.take k ++ (ls.drop k).map (setGrad b)).flatten = totalNumel ls.flatten := by
  rw [List.flatten_append, totalNumel_append, totalNumel_flatten_setGrad,
    ← totalNumel_append, ← List.flatten_append, List.take_append_drop]

theorem totals_model_of_backbone (m m2 : CausalSentModel)
    (hb : totalNumel m2.backbone.parameters = totalNumel m.backbone.parameters)
    (hr : m2.riesz_params = m.riesz_params) (hs : m2.sentiment_params = m.sentiment_params) :
    totalNumel m2.parameters = totalNumel m.parameters := by
  simp [CausalSentModel.parameters, totalNumel_append, hb, hr, hs]

theorem totalNumel_backbone_unfreezeAllParams (m : CausalSentModel) :
    totalNumel (unfreezeAllParams m).backbone.parameters = totalNumel m.backbone.parameters := by
  simp [unfreezeAllParams, Backbone.parameters, totalNumel_append, totalNumel_setGrad,
    totalNumel_flatten_setGrad]

theorem totalNumel_backbone_unfreezeLastLayers (m : CausalSentModel) (n : Nat) :
    totalNumel (unfreezeLastLayers m n).backbone.parameters = totalNumel m.backbone.parameters := by
  show totalNumel (m.backbone.non_layer_params ++
      (m.backbone.layers.take (m.backbone.layers.length - n) ++
        (m.backbone.layers.drop (m.backbone.layers.length - n)).map (setGrad true)).flatten) =
    totalNumel (m.backbone.non_layer_params ++ m.backbone.layers.flatten)
  rw [totalNumel_append, totalNumel_append, totalNumel_flatten_take_drop_setGrad]

theorem unfreeze_backbone_ok_totals (m m2 : CausalSentModel) (nl : NumLayers) (p q : ℚ)
    (h : m.unfreeze_backbone nl = .ok (m2, p, q)) :
    totalNumel m2.backbone.parameters = totalNumel m.backbone.parameters ∧
    totalNumel m2.parameters = totalNumel m.parameters := by
  cases nl with
  | num n =>
    by_cases hn : n ≤ 0
    · simp only [CausalSentModel.unfreeze_backbone, hn, if_true, Except.ok.injEq,
        Prod.mk.injEq] at h
      obtain ⟨h1, -, -⟩ := h
      subst h1
      exact ⟨rfl, rfl⟩
    · by_cases he : m.backbone.has_encoder_or_transformer
      · simp only [CausalSentModel.unfreeze_backbone, hn, if_false, he, if_true,
          Except.ok.injEq, Prod.mk.injEq] at h
        obtain ⟨h1, -, -⟩ := h
        subst h1
        refine ⟨totalNumel_backbone_unfreezeLastLayers m n.toNat, ?_⟩
        exact totals_model_of_backbone m _ (totalNumel_backbone_unfreezeLastLayers m n.toNat) rfl rfl
      · simp [CausalSentModel.unfreeze_backbone, hn, he] at h
  | all =>
    by_cases he : m.backbone.has_encoder_or_transformer
    · simp only [CausalSentModel.unfreeze_backbone, he, if_true, Except.ok.injEq,
        Prod.mk.injEq] at h
      obtain ⟨h1, -, -⟩ := h
      subst h1
      refine ⟨totalNumel_backbone_unfreezeAllParams m, ?_⟩
      exact totals_model_of_backbone m _ (totalNumel_backbone_unfreezeAllParams m) rfl rfl
    · simp [CausalSentModel.unfreeze_backbone, he] at h

theorem unfreeze_backbone_fraction_ok_totals (m m2 : CausalSentModel) (f p q : ℚ)
    (h : m.unfreeze_backbone_fraction f = .ok (m2, p, q)) :
    totalNumel m2.backbone.parameters = totalNumel m.backbone.parameters ∧
    totalNumel m2.parameters = totalNumel m.parameters := by
  by_cases he : m.backbone.has_encoder_or_transformer
  · simp only [CausalSentModel.unfreeze_backbone_fraction, he, if_true] at h
    exact unfreeze_backbone_ok_totals m m2 _ p q h
  · simp [CausalSentModel.unfreeze_backbone_fraction, he] at h

theorem reachable_backbone_total_pos (m : CausalSentModel) (h : Reachable m) :
    0 < totalNumel m.backbone.parameters := by
  induction h with
  | init bb riesz sentiment hpos => exact hpos
  | unfreeze m nl m2 p q hm hok ih =>
    rw [(unfreeze_backbone_ok_totals m m2 nl p q hok).1]
    exact ih
  | unfreeze_fraction m f m2 p q hm hok ih =>
    rw [(unfreeze_backbone_fraction_ok_totals m m2 f p q hok).1]
    exact ih

theorem pct_in_range (ps : List Param) (hT : 0 < totalNumel ps) :
    0 ≤ (trainableNumel ps : ℚ) / (totalNumel ps : ℚ) * 100 ∧
    (trainableNumel ps : ℚ) / (totalNumel ps : ℚ) * 100 ≤ 100 := by
  have hle : (trainableNumel ps : ℚ) ≤ (totalNumel ps : ℚ) := by
    exact_mod_cast trainableNumel_le_totalNumel ps
  have hTq : (0 : ℚ) < (totalNumel ps : ℚ) := by exact_mod_cast hT
  constructor
  · have h0 : 0 ≤ (trainableNumel ps : ℚ) / (totalNumel ps : ℚ) :=
      div_nonneg (Nat.cast_nonneg _) (le_of_lt hTq)
    nlinarith
  · have h1 : (trainableNumel ps : ℚ) / (totalNumel ps : ℚ) ≤ 1 := by
      rw [div_le_one hTq]
      exact hle
    nlinarith

/- ============================================================
   Claim theorems: freezing state (C4, C7, C8, C9)
   ============================================================ -/

/-- C8: `percentage_trainable_params()` and
`percentage_trainable_backbone_params()` always return a value in [0, 100],
for every model state reachable by construction and unfreeze operations. -/
theorem C8_percentages_in_range (m : CausalSentModel) (h : Reachable m) :
    (0 ≤ m.percentage_trainable_params ∧ m.percentage_trainable_params ≤ 100) ∧
    (0 ≤ m.percentage_trainable_backbone_params ∧
      m.percentage_trainable_backbone_params ≤ 100) := by
  have hb := reachable_backbone_total_pos m h
  have hm : 0 < totalNumel m.parameters := by
    have heq : totalNumel m.parameters =
        totalNumel m.backbone.parameters +
          (totalNumel m.riesz_params + totalNumel m.sentiment_params) := by
      simp [CausalSentModel.parameters, totalNumel_append]
    omega
  exact ⟨pct_in_range m.parameters hm, pct_in_range m.backbone.parameters hb⟩

/-- C8 witness: the percentages of a concrete freshly constructed model are in
range. -/
theorem C8_witness :
    (0 ≤ oneLayerModel.percentage_trainable_params ∧
      oneLayerModel.percentage_trainable_params ≤ 100) ∧
    (0 ≤ oneLayerModel.percentage_trainable_backbone_params ∧
      oneLayerModel.percentage_trainable_backbone_params ≤ 100) :=
  C8_percentages_in_range oneLayerModel
    (Reachable.init _ _ _ (by decide))

/-- C9: for every integer `num_layers ≤ 0`, `unfreeze_backbone` is a no-op —
the model state is returned unchanged (no parameter's trainability changes) —
and on a freshly constructed model the backbone trainable percentage is 0 (the
backbone is constructed fully frozen while head parameters are trainable). -/
theorem C9_unfreeze_nonpos_noop (m : CausalSentModel)
    (bb : Backbone) (riesz sentiment : List Param) (n : Int) (hn : n ≤ 0) :
    m.unfreeze_backbone (.num n) =
      .ok (m, m.percentage_trainable_params, m.percentage_trainable_backbone_params) ∧
    (CausalSent_init bb riesz sentiment).percentage_trainable_backbone_params = 0 := by
  constructor
  · simp [CausalSentModel.unfreeze_backbone, hn]
  · have h0 : trainableNumel (CausalSent_init bb riesz sentiment).backbone.parameters = 0 := by
      simp only [CausalSent_init, Backbone.parameters, trainableNumel_append,
        trainableNumel_setGrad_false, trainableNumel_flatten_setGrad_false]
    simp [CausalSentModel.percentage_trainable_backbone_params, h0]

/-- C9 witness: `unfreeze_backbone(-1)` on a concrete freshly constructed model
returns it unchanged, and its backbone trainable percentage is 0. -/
theorem C9_witness :
    oneLayerModel.unfreeze_backbone (.num (-1)) =
      .ok (oneLayerModel, oneLayerModel.percentage_trainable_params,
           oneLayerModel.percentage_trainable_backbone_params) ∧
    (CausalSent_init
      { has_encoder_or_transformer := true,
        layers := [[{ numel := 1, requires_grad := false }]],
        non_layer_params := [{ numel := 1, requires_grad := false }] }
      [{ numel := 1, requires_grad := false }]
      [{ numel := 1, requires_grad := false }]).percentage_trainable_backbone_params = 0 :=
  C9_unfreeze_nonpos_noop oneLayerModel _ _ _ (-1) (by decide)

/-- C7 counterexample: on a model whose backbone exposes neither an `encoder`
nor a `transformer` attribute, `unfreeze_backbone(0)` does not fail — the
non-positive integer branch returns normally before the attribute is ever
looked up — refuting the claim's "for every num_layers argument, including
integers". -/
theorem C7_counterexample :
    noEncoderModel.unfreeze_backbone (.num 0) =
      .ok (noEncoderModel, noEncoderModel.percentage_trainable_params,
           noEncoderModel.percentage_trainable_backbone_params) := by
  rfl

/-- C7 (amended): whenever the backbone exposes neither an `encoder` nor a
`transformer` attribute, `unfreeze_backbone` fails immediately with the
configuration (attribute) error for `num_layers = "all"` and for every positive
integer `num_layers`, and `unfreeze_backbone_fraction` fails for every
fraction; a non-positive integer `num_layers` returns without error. -/
theorem C7_missing_encoder_fails (m : CausalSentModel)
    (h : m.backbone.has_encoder_or_transformer = false) :
    m.unfreeze_backbone .all = .error attrErrMsg ∧
    (∀ n : Int, 0 < n → m.unfreeze_backbone (.num n) = .error attrErrMsg) ∧
    (∀ f : ℚ, m.unfreeze_backbone_fraction f = .error attrErrMsg) := by
  refine ⟨?_, ?_, ?_⟩
  · simp [CausalSentModel.unfreeze_backbone, h]
  · intro n hn
    simp [CausalSentModel.unfreeze_backbone, h, not_le.mpr hn]
  · intro f
    simp [CausalSentModel.unfreeze_backbone_fraction, h]

/-- C7 witness: the amended claim at a concrete encoder-less model. -/
theorem C7_witness :
    noEncoderModel.backbone.has_encoder_or_transformer = false ∧
    noEncoderModel.unfreeze_backbone .all = .error attrErrMsg :=
  ⟨by decide, (C7_missing_encoder_fails noEncoderModel (by decide)).1⟩

/-- C4 counterexample: at the boundary fraction 0.99 the code takes the
integer branch (the comparison of the source is strict: `fraction > 1.0 - eps`
with `eps = 1e-2`), so `unfreeze_backbone_fraction(0.99)` differs from
`unfreeze_backbone("all")` on a one-layer model: `int(1 * 0.99) = 0` unfreezes
nothing while `"all"` unfreezes every backbone parameter. -/
theorem C4_counterexample :
    oneLayerModel.unfreeze_backbone_fraction (99 / 100) ≠
      oneLayerModel.unfreeze_backbone .all := by
  have h1 : oneLayerModel.unfreeze_backbone_fraction (99 / 100) =
      oneLayerModel.unfreeze_backbone
        (.num (pyInt ((oneLayerModel.backbone.layers.length : ℚ) * (99 / 100)))) := by
    unfold CausalSentModel.unfreeze_backbone_fraction
    rw [if_neg (by norm_num : ¬ ((1 : ℚ) - 1 / 100 < 99 / 100))]
    rfl
  have h3 : pyInt ((oneLayerModel.backbone.layers.length : ℚ) * (99 / 100)) = 0 := by
    have hlen : oneLayerModel.backbone.layers.length = 1 := rfl
    rw [hlen, Nat.cast_one, one_mul]
    unfold pyInt
    rw [if_pos (by norm_num), Int.floor_eq_zero_iff]
    rw [Set.mem_Ico]
    constructor <;> norm_num
  have e1 : oneLayerModel.unfreeze_backbone (.num 0) =
      .ok (oneLayerModel, oneLayerModel.percentage_trainable_params,
           oneLayerModel.percentage_trainable_backbone_params) := rfl
  have e2 : oneLayerModel.unfreeze_backbone .all =
      .ok (unfreezeAllParams oneLayerModel,
           (unfreezeAllParams oneLayerModel).percentage_trainable_params,
           (unfreezeAllParams oneLayerModel).percentage_trainable_backbone_params) := rfl
  rw [h1, h3, e1, e2]
  intro hc
  have hmodels : oneLayerModel = unfreezeAllParams oneLayerModel :=
    congrArg Prod.fst (Except.ok.inj hc)
  exact absurd hmodels (by decide)

/-- C4 (amended): for every fraction strictly greater than 0.99,
`unfreeze_backbone_fraction(f)` behaves identically to
`unfreeze_backbone("all")`; for every fraction `f ≤ 0.99` in [0, 1] (on a
model with an encoder attribute) it converts the fraction to the integer layer
count `int(total_backbone_layers * f)` and delegates to `unfreeze_backbone`
with that count. -/
theorem C4_fraction_delegation (m : CausalSentModel) (f : ℚ) :
    (1 - 1 / 100 < f →
      m.unfreeze_backbone_fraction f = m.unfreeze_backbone .all) ∧
    (0 ≤ f → f ≤ 1 - 1 / 100 → m.backbone.has_encoder_or_transformer = true →
      m.unfreeze_backbone_fraction f =
        m.unfreeze_backbone (.num (pyInt ((m.backbone.layers.length : ℚ) * f)))) := by
  constructor
  · intro hf
    by_cases he : m.backbone.has_encoder_or_transformer
    · unfold CausalSentModel.unfreeze_backbone_fraction
      rw [if_pos hf, if_pos he]
    · unfold CausalSentModel.unfreeze_backbone_fraction
      rw [if_neg he]
      show _ = m.unfreeze_backbone .all
      unfold CausalSentModel.unfreeze_backbone
      rw [if_neg he]
  · intro h0 hf he
    unfold CausalSentModel.unfreeze_backbone_fraction
    rw [if_pos he, if_neg (not_lt.mpr hf)]

/-- C4 witness: the amended claim at the concrete fraction 1 (certainly above
the 0.99 threshold) on a concrete model. -/
theorem C4_witness :
    ((1 : ℚ) - 1 / 100 < 1) ∧
    oneLayerModel.unfreeze_backbone_fraction 1 = oneLayerModel.unfreeze_backbone .all :=
  ⟨by norm_num, (C4_fraction_delegation oneLayerModel 1).1 (by norm_num)⟩

/- ============================================================
   Claim theorems: constructor call of the training script (C3)
   ============================================================ -/

/-- C3: for every argument configuration, the training script fails at model
construction — the call of train_causal_sent.py line 89 passes the keyword
`bert_hidden_size`, which `CausalSent.__init__` does not accept, so keyword
binding raises `TypeError` before any training batch is processed (the
training loop of line 94 is only reached after the call of line 89 returns). -/
theorem C3_constructor_type_error (args : TrainArgs) :
    constructModelCall args =
      .error "TypeError: __init__ got an unexpected keyword argument bert_hidden_size" := by
  rfl

/-- C3 witness: the constructor call fails at a concrete argument
configuration. -/
theorem C3_witness :
    constructModelCall
      { pretrained_model_name := "distilbert-base-uncased",
        running_ate := true, estimate_targets_for_ate := true } =
      .error "TypeError: __init__ got an unexpected keyword argument bert_hidden_size" :=
  C3_constructor_type_error
    { pretrained_model_name := "distilbert-base-uncased",
      running_ate := true, estimate_targets_for_ate := true }

/- ============================================================
   Claim theorems: per-batch losses and tau_hat (C1, C2, C5)
   ============================================================ -/

theorem zipWith_riesz_eq_zip (xs ys zs : List ℚ) :
    List.zipWith (fun a b => a + b)
      ((List.zipWith (fun a b => a - b) xs ys).map (fun x => -2 * x))
      (zs.map (fun x => x ^ 2)) =
    (xs.zip (ys.zip zs)).map (fun p => -2 * (p.1 - p.2.1) + p.2.2 ^ 2) := by
  induction xs generalizing ys zs with
  | nil => simp
  | cons x xs ih =>
    cases ys with
    | nil => simp
    | cons y ys =>
      cases zs with
      | nil => simp
      | cons z zs =>
        simp only [List.zipWith_cons_cons, List.map_cons, List.zip_cons_cons]
        rw [ih]

theorem map_reg_eq_zip (xs ys : List ℚ) (t : ℚ) :
    ((List.zipWith (fun a b => a - b) xs ys).map (fun x => x - t)).map (fun x => x ^ 2) =
    (xs.zip ys).map (fun p => (p.1 - p.2 - t) ^ 2) := by
  induction xs generalizing ys with
  | nil => simp
  | cons x xs ih =>
    cases ys with
    | nil => simp
    | cons y ys =>
      simp only [List.zipWith_cons_cons, List.map_cons, List.zip_cons_cons]
      rw [ih]

/-- C5: for every batch, the per-batch loss terms satisfy
`riesz_loss = mean(-2 * (riesz_treated - riesz_control) + riesz_real ^ 2)`,
`reg_loss = mean((sentiment_treated - sentiment_control - tau_hat) ^ 2)`, and
`loss = lambda_bce * bce + lambda_reg * reg_loss + lambda_riesz * riesz_loss`,
with the three coefficients three independent scalars. -/
theorem C5_loss_formulas (sigmoid : ℚ → ℚ) (bce_loss : List ℚ → List ℚ → ℚ)
    (lambda_bce lambda_reg lambda_riesz : ℚ)
    (running_ate estimate_targets_for_ate : Bool)
    (acc : Option AteAccum) (b : BatchTensors) :
    ((trainBatchStep sigmoid bce_loss lambda_bce lambda_reg lambda_riesz
        running_ate estimate_targets_for_ate acc b).2.riesz_loss =
      rieszLossClaim b.riesz_treated b.riesz_control b.riesz_real) ∧
    ((trainBatchStep sigmoid bce_loss lambda_bce lambda_reg lambda_riesz
        running_ate estimate_targets_for_ate acc b).2.reg_loss =
      regLossClaim b.sentiment_treated b.sentiment_control
        ((trainBatchStep sigmoid bce_loss lambda_bce lambda_reg lambda_riesz
          running_ate estimate_targets_for_ate acc b).2.tau_hat)) ∧
    ((trainBatchStep sigmoid bce_loss lambda_bce lambda_reg lambda_riesz
        running_ate estimate_targets_for_ate acc b).2.loss =
      lambda_bce * (trainBatchStep sigmoid bce_loss lambda_bce lambda_reg lambda_riesz
          running_ate estimate_targets_for_ate acc b).2.bce +
        lambda_reg * (trainBatchStep sigmoid bce_loss lambda_bce lambda_reg lambda_riesz
          running_ate estimate_targets_for_ate acc b).2.reg_loss +
        lambda_riesz * (trainBatchStep sigmoid bce_loss lambda_bce lambda_reg lambda_riesz
          running_ate estimate_targets_for_ate acc b).2.riesz_loss) := by
  refine ⟨?_, ?_, rfl⟩
  · show mean (List.zipWith (fun a b => a + b)
        ((List.zipWith (fun a b => a - b) b.riesz_treated b.riesz_control).map (fun x => -2 * x))
        (b.riesz_real.map (fun x => x ^ 2))) =
      rieszLossClaim b.riesz_treated b.riesz_control b.riesz_real
    unfold rieszLossClaim
    rw [zipWith_riesz_eq_zip]
  · show mean (((List.zipWith (fun a b => a - b)
        b.sentiment_treated b.sentiment_control).map
          (fun x => x - (compute_tau_hat sigmoid running_ate estimate_targets_for_ate acc b).2)).map
            (fun x => x ^ 2)) =
      regLossClaim b.sentiment_treated b.sentiment_control
        ((trainBatchStep sigmoid bce_loss lambda_bce lambda_reg lambda_riesz
          running_ate estimate_targets_for_ate acc b).2.tau_hat)
    unfold regLossClaim
    rw [map_reg_eq_zip]
    rfl

/-- C1 (evaluation of the code at the failing input): in running-average mode
with `estimate_targets_for_ate = False`, the first batch with Riesz-real output
`[2]` and targets `[1]` yields `tau_hat = mean(all_targets) = 1` — the Python
conditional-expression precedence drops the multiplication by the Riesz output
— whereas the claimed value `mean(riesz_real * targets)` is `2`.  (The
per-batch branch of line 135 and the Riesz-representation comment show the
claimed formula is the intent.) -/
theorem C1_running_tau_hat_eval :
    (compute_tau_hat id true false none tauDemoBatch).2 = 1 ∧
    mean (List.zipWith (fun a b => a * b) tauDemoBatch.riesz_real tauDemoBatch.targets) = 2 := by
  constructor
  · norm_num [compute_tau_hat, tauDemoBatch, mean]
  · norm_num [tauDemoBatch, mean]

/-- C2 (evaluation of the code at the failing input): two epochs of one batch
each in running-average mode; the targets are `[0]` in epoch 1 and `[1]` in
epoch 2.  The `locals()`-guarded accumulators are initialized once at the very
first batch and never reset at an epoch boundary, so the epoch-2 `tau_hat` is
`mean [0, 1] = 1/2`, averaging over both epochs' examples — whereas an
epoch-scoped accumulator (the claimed behavior, matching the accumulators'
`epoch_*` names) would give `mean [1] = 1`. -/
theorem C2_cross_epoch_eval :
    ((train_causal_sent_loop id (fun _ _ => (0 : ℚ)) 1 1 1 true false
        [[crossEpochBatch1], [crossEpochBatch2]]).2.map
          (fun rs => rs.map BatchLosses.tau_hat)) = [[0], [1/2]] ∧
    (compute_tau_hat id true false none crossEpochBatch2).2 = 1 := by
  constructor
  · norm_num [train_causal_sent_loop, train_causal_sent_loop.train_causal_sent_loopAux,
      runEpochBatches, trainBatchStep, compute_tau_hat, crossEpochBatch1, crossEpochBatch2, mean]
  · norm_num [compute_tau_hat, crossEpochBatch2, mean]

/- ============================================================
   Claim theorems: forward pass (C6, C10)
   ============================================================ -/

theorem headInputs3_valid (label : String) (fam : BackboneFamily) (ht : String)
    (h : ht = "fcn" ∨ ht = "linear" ∨ ht = "conv") (outR outT outC : List (List ℚ)) :
    headInputs3 label fam ht outR outT outC =
      .ok (headInputFor fam ht outR, headInputFor fam ht outT, headInputFor fam ht outC) := by
  rcases h with h | h | h <;> subst h <;> rfl

theorem forward_train_eq {Ids Mask : Type} (M : ForwardModel Ids Mask)
    (ir it ic : Ids) (mr mt mc : Mask)
    (htrain : M.training = true)
    (hr : M.riesz_head_type = "fcn" ∨ M.riesz_head_type = "linear" ∨ M.riesz_head_type = "conv")
    (hs : M.sentiment_head_type = "fcn" ∨ M.sentiment_head_type = "linear" ∨
      M.sentiment_head_type = "conv") :
    CausalSent_forward M ir it ic mr mt mc =
      (⟨[(ir, mr), (it, mt), (ic, mc)],
        [headInputFor M.family M.riesz_head_type (M.backbone ir mr),
         headInputFor M.family M.riesz_head_type (M.backbone it mt),
         headInputFor M.family M.riesz_head_type (M.backbone ic mc)],
        [headInputFor M.family M.sentiment_head_type (M.backbone ir mr),
         headInputFor M.family M.sentiment_head_type (M.backbone it mt),
         headInputFor M.family M.sentiment_head_type (M.backbone ic mc)]⟩,
       .ok (.trainOut
         (M.sentiment (headInputFor M.family M.sentiment_head_type (M.backbone ir mr)))
         (M.sentiment (headInputFor M.family M.sentiment_head_type (M.backbone it mt)))
         (M.sentiment (headInputFor M.family M.sentiment_head_type (M.backbone ic mc)))
         (M.riesz (headInputFor M.family M.riesz_head_type (M.backbone ir mr)))
         (M.riesz (headInputFor M.family M.riesz_head_type (M.backbone it mt)))
         (M.riesz (headInputFor M.family M.riesz_head_type (M.backbone ic mc))))) := by
  simp only [CausalSent_forward, htrain, if_true]
  rw [headInputs3_valid "Riesz" M.family M.riesz_head_type hr,
      headInputs3_valid "sentiment" M.family M.sentiment_head_type hs]

/-- C6: in training mode, an `fcn` or `linear` head receives a single pooled
vector per example — the first sequence position's embedding for DistilBERT,
the last sequence position's embedding for LLaMA — while a `conv` head receives
the full per-token embedding sequence; the Riesz head's and the sentiment
head's pooling choices depend only on that head's own type. -/
theorem C6_pooling_policy {Ids Mask : Type} (M : ForwardModel Ids Mask)
    (ir it ic : Ids) (mr mt mc : Mask)
    (htrain : M.training = true)
    (hr : M.riesz_head_type = "fcn" ∨ M.riesz_head_type = "linear" ∨ M.riesz_head_type = "conv")
    (hs : M.sentiment_head_type = "fcn" ∨ M.sentiment_head_type = "linear" ∨
      M.sentiment_head_type = "conv") :
    ((M.riesz_head_type = "fcn" ∨ M.riesz_head_type = "linear") →
      (M.family = BackboneFamily.distilbert →
        (CausalSent_forward M ir it ic mr mt mc).1.riesz_calls =
          [HeadInput.pooled ((M.backbone ir mr).headD []),
           HeadInput.pooled ((M.backbone it mt).headD []),
           HeadInput.pooled ((M.backbone ic mc).headD [])]) ∧
      (M.family = BackboneFamily.llama →
        (CausalSent_forward M ir it ic mr mt mc).1.riesz_calls =
          [HeadInput.pooled ((M.backbone ir mr).getLastD []),
           HeadInput.pooled ((M.backbone it mt).getLastD []),
           HeadInput.pooled ((M.backbone ic mc).getLastD [])])) ∧
    (M.riesz_head_type = "conv" →
      (CausalSent_forward M ir it ic mr mt mc).1.riesz_calls =
        [HeadInput.seq (M.backbone ir mr), HeadInput.seq (M.backbone it mt),
         HeadInput.seq (M.backbone ic mc)]) ∧
    ((M.sentiment_head_type = "fcn" ∨ M.sentiment_head_type = "linear") →
      (M.family = BackboneFamily.distilbert →
        (CausalSent_forward M ir it ic mr mt mc).1.sentiment_calls =
          [HeadInput.pooled ((M.backbone ir mr).headD []),
           HeadInput.pooled ((M.backbone it mt).headD []),
           HeadInput.pooled ((M.backbone ic mc).headD [])]) ∧
      (M.family = BackboneFamily.llama →
        (CausalSent_forward M ir it ic mr mt mc).1.sentiment_calls =
          [HeadInput.pooled ((M.backbone ir mr).getLastD []),
           HeadInput.pooled ((M.backbone it mt).getLastD []),
           HeadInput.pooled ((M.backbone ic mc).getLastD [])])) ∧
    (M.sentiment_head_type = "conv" →
      (CausalSent_forward M ir it ic mr mt mc).1.sentiment_calls =
        [HeadInput.seq (M.backbone ir mr), HeadInput.seq (M.backbone it mt),
         HeadInput.seq (M.backbone ic mc)]) := by
  have hfwd := forward_train_eq M ir it ic mr mt mc htrain hr hs
  refine ⟨?_, ?_, ?_, ?_⟩
  · intro hfl
    constructor
    · intro hfam
      rw [hfwd]
      rcases hfl with h | h <;> rw [h, hfam] <;> rfl
    · intro hfam
      rw [hfwd]
      rcases hfl with h | h <;> rw [h, hfam] <;> rfl
  · intro h
    rw [hfwd, h]
    rfl
  · intro hfl
    constructor
    · intro hfam
      rw [hfwd]
      rcases hfl with h | h <;> rw [h, hfam] <;> rfl
    · intro hfam
      rw [hfwd]
      rcases hfl with h | h <;> rw [h, hfam] <;> rfl
  · intro h
    rw [hfwd, h]
    rfl

/-- C6 witness: on a concrete DistilBERT-family model in training mode with an
`fcn` Riesz head, the Riesz head receives the first sequence position's
embedding of each of the three backbone outputs. -/
theorem C6_witness :
    (CausalSent_forward fwdDemoModel 1 2 3 4 5 6).1.riesz_calls =
      [HeadInput.pooled ((fwdDemoModel.backbone 1 4).headD []),
       HeadInput.pooled ((fwdDemoModel.backbone 2 5).headD []),
       HeadInput.pooled ((fwdDemoModel.backbone 3 6).headD [])] :=
  ((C6_pooling_policy fwdDemoModel 1 2 3 4 5 6 rfl (Or.inl rfl)
      (Or.inr (Or.inr rfl))).1 (Or.inl rfl)).1 rfl

/-- C10: in training mode, the backbone runs exactly three times — on the
real, treated and control inputs, in that order — and forward returns the
six-tuple `(sentiment_real, sentiment_treated, sentiment_control, riesz_real,
riesz_treated, riesz_control)`; in inference mode the backbone runs once, on
the real input only, and forward returns only the sentiment output. -/
theorem C10_forward_modes {Ids Mask : Type} (M : ForwardModel Ids Mask)
    (ir it ic : Ids) (mr mt mc : Mask)
    (hr : M.riesz_head_type = "fcn" ∨ M.riesz_head_type = "linear" ∨ M.riesz_head_type = "conv")
    (hs : M.sentiment_head_type = "fcn" ∨ M.sentiment_head_type = "linear" ∨
      M.sentiment_head_type = "conv") :
    (M.training = true →
      (CausalSent_forward M ir it ic mr mt mc).1.backbone_calls =
        [(ir, mr), (it, mt), (ic, mc)] ∧
      (CausalSent_forward M ir it ic mr mt mc).2 =
        .ok (.trainOut
          (M.sentiment (headInputFor M.family M.sentiment_head_type (M.backbone ir mr)))
          (M.sentiment (headInputFor M.family M.sentiment_head_type (M.backbone it mt)))
          (M.sentiment (headInputFor M.family M.sentiment_head_type (M.backbone ic mc)))
          (M.riesz (headInputFor M.family M.riesz_head_type (M.backbone ir mr)))
          (M.riesz (headInputFor M.family M.riesz_head_type (M.backbone it mt)))
          (M.riesz (headInputFor M.family M.riesz_head_type (M.backbone ic mc))))) ∧
    (M.training = false →
      (CausalSent_forward M ir it ic mr mt mc).1.backbone_calls = [(ir, mr)] ∧
      (CausalSent_forward M ir it ic mr mt mc).2 =
        .ok (.inferOut
          (M.sentiment (headInputFor M.family M.sentiment_head_type (M.backbone ir mr))))) := by
  constructor
  · intro htrain
    rw [forward_train_eq M ir it ic mr mt mc htrain hr hs]
    exact ⟨rfl, rfl⟩
  · intro hinfer
    rcases hs with h | h | h <;>
      constructor <;>
        simp [CausalSent_forward, hinfer, h, headInputFor, isFcnOrLinear]

/-- C10 witness: on a concrete training-mode model the backbone call log and
the six-tuple output are as stated. -/
theorem C10_witness :
    (CausalSent_forward fwdDemoModel 1 2 3 4 5 6).1.backbone_calls =
      [(1, 4), (2, 5), (3, 6)] ∧
    (CausalSent_forward fwdDemoModel 1 2 3 4 5 6).2 =
      .ok (.trainOut
        (fwdDemoModel.sentiment (headInputFor fwdDemoModel.family
          fwdDemoModel.sentiment_head_type (fwdDemoModel.backbone 1 4)))
        (fwdDemoModel.sentiment (headInputFor fwdDemoModel.family
          fwdDemoModel.sentiment_head_type (fwdDemoModel.backbone 2 5)))
        (fwdDemoModel.sentiment (headInputFor fwdDemoModel.family
          fwdDemoModel.sentiment_head_type (fwdDemoModel.backbone 3 6)))
        (fwdDemoModel.riesz (headInputFor fwdDemoModel.family
          fwdDemoModel.riesz_head_type (fwdDemoModel.backbone 1 4)))
        (fwdDemoModel.riesz (headInputFor fwdDemoModel.family
          fwdDemoModel.riesz_head_type (fwdDemoModel.backbone 2 5)))
        (fwdDemoModel.riesz (headInputFor fwdDemoModel.family
          fwdDemoModel.riesz_head_type (fwdDemoModel.backbone 3 6)))) :=
  (C10_forward_modes fwdDemoModel 1 2 3 4 5 6 (Or.inl rfl)
    (Or.inr (Or.inr rfl))).1 rfl
